import Mathlib

/-
  Shallow embedding of the credential resolution / refresh / persistence
  engine of the terraform-provider-stackit repository (Go package `core`):
  - src/unnamed/part_005        (profile resolution, dual-backend store)
  - src/stackit/internal/core/cli_token_refresh.go  (expiry check, refresh)

  Modelling conventions:
  - Time is an integer count of seconds (Go `time.Time`); the zero value
    (`time.Time.IsZero`) is modelled as `none : Option Int`, a set timestamp
    as `some unixSeconds`.  All timestamps the code manipulates are whole
    seconds (`time.Unix(n, 0)`, `Add(n * time.Second)`).
  - The OS keyring (`github.com/zalando/go-keyring`) is a list of
    (service, key, value) entries plus an availability flag: `Get`/`Set`
    fail exactly when the keyring backend is unavailable or (for Get) the
    entry is absent.
  - The file system is a list of (path, entry) pairs where an entry is
    either readable content or an existing-but-unreadable file
    (permission / I/O error), matching the `os.IsNotExist` distinction
    the Go code makes.
  - Fallible Go functions returning `(T, error)` become `Except String T`,
    carrying the `fmt.Errorf` message strings.
  - Byte strings (file contents, decoded base64) are Lean `String`s whose
    characters are the bytes; all contents involved are ASCII.
-/

namespace StackitAuth

/-- `ProviderCredentials` (part_005 lines 18-26): OAuth credentials stored by
the STACKIT CLI.  `sessionExpiresAt = none` models the Go zero `time.Time`. -/
structure ProviderCredentials where
  accessToken : String
  refreshToken : String
  email : String
  sessionExpiresAt : Option Int
  authFlowType : String
  sourceProfile : String
  storageLocationUsed : String
deriving DecidableEq

/-- Keyring state: availability flag plus (service, key, value) entries.
go-keyring `Get`/`Set` fail when the OS keyring is unavailable. -/
structure KeyringState where
  available : Bool
  entries : List (String × String × String)
deriving DecidableEq

/-- A file on disk: readable content, or existing but unreadable
(the non-`IsNotExist` error branch of `os.ReadFile`). -/
inductive FileEntry where
  | readable (content : String)
  | unreadable
deriving DecidableEq

/-- The file system: association list path ↦ entry; absent path = not exist. -/
def FileSystem := List (String × FileEntry)

instance : DecidableEq FileSystem := by
  unfold FileSystem
  infer_instance

/-- Read errors of `os.ReadFile`, keeping the `os.IsNotExist` distinction. -/
inductive FsError where
  | notExist
  | ioError (msg : String)
deriving DecidableEq

/-- `os.ReadFile` on the modelled file system. -/
def readFile (fs : FileSystem) (path : String) : Except FsError String :=
  match fs.find? (fun e => e.1 == path) with
  | some (_, FileEntry.readable content) => Except.ok content
  | some (_, FileEntry.unreadable) => Except.error (FsError.ioError "permission denied")
  | none => Except.error FsError.notExist

/-- `os.WriteFile`: create or replace the file at `path`. -/
def fsWrite (fs : FileSystem) (path : String) (content : String) : FileSystem :=
  match fs with
  | [] => [(path, FileEntry.readable content)]
  | e :: rest =>
    if e.1 = path then (path, FileEntry.readable content) :: rest
    else e :: fsWrite rest path content

/-- go-keyring `Get(service, key)`. -/
def keyringGet (k : KeyringState) (service key : String) : Except String String :=
  if k.available then
    match k.entries.find? (fun e => e.1 == service && e.2.1 == key) with
    | some e => Except.ok e.2.2
    | none => Except.error "secret not found in keyring"
  else Except.error "keyring backend unavailable"

/-- Replace or append a (service, key, value) keyring entry. -/
def setEntry (entries : List (String × String × String)) (service key value : String) :
    List (String × String × String) :=
  match entries with
  | [] => [(service, key, value)]
  | e :: rest =>
    if e.1 = service ∧ e.2.1 = key then (service, key, value) :: rest
    else e :: setEntry rest service key value

/-- go-keyring `Set(service, key, value)`. -/
def keyringSet (k : KeyringState) (service key value : String) :
    Except String KeyringState :=
  if k.available then Except.ok { k with entries := setEntry k.entries service key value }
  else Except.error "keyring backend unavailable"

/-- Combined mutable world touched by the store: keyring plus file system. -/
structure WorldState where
  keyring : KeyringState
  fs : FileSystem
deriving DecidableEq

/-- Process environment seen by the code: the `STACKIT_CLI_PROFILE` variable
(`""` when unset, as `os.Getenv` reports) and the result of
`os.UserHomeDir`. -/
structure Env where
  stackitCliProfile : String
  homeDir : Except String String

/-- `strconv.ParseInt(s, 10, 64)` as an `Option`: optional sign, at least one
decimal digit, nothing else, value within the signed 64-bit range. -/
def parseInt64 (s : String) : Option Int :=
  let signDigits : Int × List Char :=
    match s.data with
    | '+' :: rest => (1, rest)
    | '-' :: rest => (-1, rest)
    | cs => (1, cs)
  let sign := signDigits.1
  let digits := signDigits.2
  if digits.isEmpty then none
  else if digits.all Char.isDigit then
    let n : Nat := digits.foldl (fun acc c => acc * 10 + (c.toNat - 48)) 0
    let v : Int := sign * (n : Int)
    if -(2 ^ 63) ≤ v ∧ v ≤ 2 ^ 63 - 1 then some v else none
  else none

/-! ### Go standard-library codecs used by the file backend

`encoding/base64` (StdEncoding) and `encoding/json` restricted to the shapes
the code uses: `json.Unmarshal` into `map[string]string` and `json.Marshal`
of a `map[string]string` (which emits the object with its keys sorted).
These model library behaviour, not repository code; surrogate-pair
`\uXXXX\uXXXX` escapes and `json.Marshal`'s HTML escaping of bytes that do
not occur in this subsystem's data are not modelled. -/

/-- Value of a standard-base64 alphabet character. -/
def b64Index (c : Char) : Option Nat :=
  if 'A' ≤ c ∧ c ≤ 'Z' then some (c.toNat - 65)
  else if 'a' ≤ c ∧ c ≤ 'z' then some (c.toNat - 97 + 26)
  else if '0' ≤ c ∧ c ≤ '9' then some (c.toNat - 48 + 52)
  else if c = '+' then some 62
  else if c = '/' then some 63
  else none

/-- Decode base64 four-character quanta into bytes; padding (`=`) is allowed
only in the final quantum. -/
def b64DecodeChunks : List Char → Option (List Char)
  | [] => some []
  | c1 :: c2 :: c3 :: c4 :: rest =>
    match b64Index c1, b64Index c2 with
    | some v1, some v2 =>
      if c3 = '=' then
        if c4 = '=' ∧ rest = [] then
          some [Char.ofNat (v1 * 4 + v2 / 16)]
        else none
      else
        match b64Index c3 with
        | some v3 =>
          if c4 = '=' then
            if rest = [] then
              some [Char.ofNat (v1 * 4 + v2 / 16), Char.ofNat (v2 % 16 * 16 + v3 / 4)]
            else none
          else
            match b64Index c4 with
            | some v4 =>
              match b64DecodeChunks rest with
              | some tail =>
                some (Char.ofNat (v1 * 4 + v2 / 16) :: Char.ofNat (v2 % 16 * 16 + v3 / 4) ::
                      Char.ofNat (v3 % 4 * 64 + v4) :: tail)
              | none => none
            | none => none
        | none => none
    | _, _ => none
  | _ => none

/-- `base64.StdEncoding.DecodeString`: newline characters are skipped, then
the input must be well-formed four-character quanta. -/
def base64Decode (s : String) : Except String String :=
  match b64DecodeChunks (s.data.filter (fun c => c ≠ '\n' ∧ c ≠ '\r')) with
  | some bytes => Except.ok (String.mk bytes)
  | none => Except.error "illegal base64 data"

/-- Standard base64 alphabet character for a 6-bit value. -/
def b64Char (n : Nat) : Char :=
  if n < 26 then Char.ofNat (65 + n)
  else if n < 52 then Char.ofNat (97 + (n - 26))
  else if n < 62 then Char.ofNat (48 + (n - 52))
  else if n = 62 then '+'
  else '/'

/-- Encode bytes as standard base64 with padding. -/
def b64EncodeChunks : List Char → List Char
  | [] => []
  | [b1] =>
    [b64Char (b1.toNat / 4), b64Char (b1.toNat % 4 * 16), '=', '=']
  | [b1, b2] =>
    [b64Char (b1.toNat / 4), b64Char (b1.toNat % 4 * 16 + b2.toNat / 16),
     b64Char (b2.toNat % 16 * 4), '=']
  | b1 :: b2 :: b3 :: rest =>
    b64Char (b1.toNat / 4) :: b64Char (b1.toNat % 4 * 16 + b2.toNat / 16) ::
    b64Char (b2.toNat % 16 * 4 + b3.toNat / 64) :: b64Char (b3.toNat % 64) ::
    b64EncodeChunks rest

/-- `base64.StdEncoding.EncodeToString`. -/
def base64Encode (s : String) : String :=
  String.mk (b64EncodeChunks s.data)

/-- JSON whitespace skipping. -/
def skipWs (cs : List Char) : List Char :=
  cs.dropWhile (fun c => c = ' ' ∨ c = '\t' ∨ c = '\n' ∨ c = '\r')

/-- Hex digit value. -/
def hexVal (c : Char) : Option Nat :=
  if '0' ≤ c ∧ c ≤ '9' then some (c.toNat - 48)
  else if 'a' ≤ c ∧ c ≤ 'f' then some (c.toNat - 97 + 10)
  else if 'A' ≤ c ∧ c ≤ 'F' then some (c.toNat - 65 + 10)
  else none

/-- Parse the remainder of a JSON string literal (after the opening quote),
returning its characters and the rest of the input.  Fuelled recursion. -/
def jsonParseStringRest : Nat → List Char → Option (List Char × List Char)
  | 0, _ => none
  | _ + 1, [] => none
  | _ + 1, '"' :: rest => some ([], rest)
  | fuel + 1, '\\' :: esc =>
    match esc with
    | '"' :: rest => (jsonParseStringRest fuel rest).map (fun p => ('"' :: p.1, p.2))
    | '\\' :: rest => (jsonParseStringRest fuel rest).map (fun p => ('\\' :: p.1, p.2))
    | '/' :: rest => (jsonParseStringRest fuel rest).map (fun p => ('/' :: p.1, p.2))
    | 'n' :: rest => (jsonParseStringRest fuel rest).map (fun p => ('\n' :: p.1, p.2))
    | 't' :: rest => (jsonParseStringRest fuel rest).map (fun p => ('\t' :: p.1, p.2))
    | 'r' :: rest => (jsonParseStringRest fuel rest).map (fun p => ('\r' :: p.1, p.2))
    | 'b' :: rest => (jsonParseStringRest fuel rest).map (fun p => (Char.ofNat 8 :: p.1, p.2))
    | 'f' :: rest => (jsonParseStringRest fuel rest).map (fun p => (Char.ofNat 12 :: p.1, p.2))
    | 'u' :: h1 :: h2 :: h3 :: h4 :: rest =>
      match hexVal h1, hexVal h2, hexVal h3, hexVal h4 with
      | some a, some b, some c, some d =>
        (jsonParseStringRest fuel rest).map
          (fun p => (Char.ofNat (a * 4096 + b * 256 + c * 16 + d) :: p.1, p.2))
      | _, _, _, _ => none
    | _ => none
  | fuel + 1, c :: rest =>
    if c.toNat < 32 then none
    else (jsonParseStringRest fuel rest).map (fun p => (c :: p.1, p.2))

/-- Insert into an association list, replacing an existing binding
(Go map assignment: later duplicate keys win). -/
def mapInsert (m : List (String × String)) (key value : String) :
    List (String × String) :=
  match m with
  | [] => [(key, value)]
  | e :: rest => if e.1 = key then (key, value) :: rest else e :: mapInsert rest key value

/-- Parse the members of a JSON object of string values, after the opening
brace (and with a possibly already-parsed accumulator).  Fuelled. -/
def jsonParseMembers : Nat → List Char → List (String × String) →
    Option (List (String × String) × List Char)
  | 0, _, _ => none
  | fuel + 1, cs, acc =>
    match skipWs cs with
    | '"' :: rest =>
      match jsonParseStringRest (fuel + 1) rest with
      | some (key, afterKey) =>
        match skipWs afterKey with
        | ':' :: afterColon =>
          match skipWs afterColon with
          | '"' :: valRest =>
            match jsonParseStringRest (fuel + 1) valRest with
            | some (value, afterVal) =>
              let acc := mapInsert acc (String.mk key) (String.mk value)
              match skipWs afterVal with
              | ',' :: afterComma => jsonParseMembers fuel afterComma acc
              | '\x7d' :: afterBrace => some (acc, afterBrace)
              | _ => none
            | none => none
          | _ => none
        | _ => none
      | none => none
    | _ => none

/-- `json.Unmarshal(bytes, &m)` for `m : map[string]string`: a single JSON
object whose values are all strings, with nothing but whitespace after it. -/
def jsonUnmarshalStringMap (s : String) : Except String (List (String × String)) :=
  match skipWs s.data with
  | '\x7b' :: rest =>
    match skipWs rest with
    | '\x7d' :: afterBrace =>
      if (skipWs afterBrace).isEmpty then Except.ok [] else Except.error "invalid character after top-level value"
    | _ =>
      match jsonParseMembers (s.length + 1) rest [] with
      | some (m, remaining) =>
        if (skipWs remaining).isEmpty then Except.ok m
        else Except.error "invalid character after top-level value"
      | none => Except.error "invalid json"
  | _ => Except.error "json: cannot unmarshal value into map"

/-- JSON escaping of one character, as Go's encoder does for the byte range
this subsystem stores (quotes, backslash, control characters). -/
def jsonEscapeChar (c : Char) : List Char :=
  if c = '"' then ['\\', '"']
  else if c = '\\' then ['\\', '\\']
  else if c = '\n' then ['\\', 'n']
  else if c = '\r' then ['\\', 'r']
  else if c = '\t' then ['\\', 't']
  else if c.toNat < 32 then
    ['\\', 'u', '0', '0',
     (if c.toNat / 16 < 10 then Char.ofNat (48 + c.toNat / 16) else Char.ofNat (87 + c.toNat / 16)),
     (if c.toNat % 16 < 10 then Char.ofNat (48 + c.toNat % 16) else Char.ofNat (87 + c.toNat % 16))]
  else [c]

/-- A JSON string literal for `s`. -/
def jsonQuote (s : String) : String :=
  String.mk ('"' :: (s.data.flatMap jsonEscapeChar) ++ ['"'])

/-- Byte-wise lexicographic comparison of character lists (Go sorts map
keys in byte order). -/
def strLtChars : List Char → List Char → Bool
  | [], [] => false
  | [], _ :: _ => true
  | _ :: _, [] => false
  | a :: as, b :: bs =>
    if a.toNat < b.toNat then true
    else if b.toNat < a.toNat then false
    else strLtChars as bs

/-- Byte-wise lexicographic string comparison. -/
def strLt (a b : String) : Bool := strLtChars a.data b.data

/-- Insert an entry into a key-sorted association list. -/
def insertSortedByKey (p : String × String) :
    List (String × String) → List (String × String)
  | [] => [p]
  | q :: rest => if strLt q.1 p.1 then q :: insertSortedByKey p rest else p :: q :: rest

/-- Sort an association list by key (Go's `json.Marshal` emits map keys in
sorted order). -/
def sortByKey (m : List (String × String)) : List (String × String) :=
  m.foldr insertSortedByKey []

/-- `json.Marshal` of a `map[string]string`: compact object, keys sorted. -/
def jsonMarshalStringMap (m : List (String × String)) : String :=
  let body := String.intercalate ","
    ((sortByKey m).map (fun e => jsonQuote e.1 ++ ":" ++ jsonQuote e.2))
  "\x7b" ++ body ++ "\x7d"

deriving instance DecidableEq for Except

deriving instance DecidableEq for FsError

/-! ### Profile resolution and storage paths (part_005 lines 28-94) -/

/-- Default profile name (part_005 line 40). -/
def defaultProfile : String := "default"

/-- Whitespace as `strings.TrimSpace` treats it (ASCII range). -/
def isSpaceChar (c : Char) : Bool :=
  c = ' ' ∨ c = '\t' ∨ c = '\n' ∨ c = '\r' ∨ c = Char.ofNat 11 ∨ c = Char.ofNat 12

/-- `strings.TrimSpace`: strip leading and trailing whitespace. -/
def trimSpace (s : String) : String :=
  String.mk (((s.data.dropWhile isSpaceChar).reverse.dropWhile isSpaceChar).reverse)

/-- `getActiveProfile` (part_005 lines 45-73).  Priority: explicit override,
then the `STACKIT_CLI_PROFILE` environment variable, then the trimmed
contents of `~/.config/stackit/cli-profile.txt`; a missing pointer file means
the default profile, any other read error fails. -/
def getActiveProfile (profileOverride : String) (env : Env) (fs : FileSystem) :
    Except String String :=
  if profileOverride ≠ "" then Except.ok profileOverride
  else if env.stackitCliProfile ≠ "" then Except.ok env.stackitCliProfile
  else
    match env.homeDir with
    | Except.error e => Except.error ("get home dir: " ++ e)
    | Except.ok homeDir =>
      let profilePath := homeDir ++ "/.config/stackit/cli-profile.txt"
      match readFile fs profilePath with
      | Except.error FsError.notExist => Except.ok defaultProfile
      | Except.error (FsError.ioError m) => Except.error ("read profile file: " ++ m)
      | Except.ok data => Except.ok (trimSpace data)

/-- `getKeyringServiceName` (part_005 lines 76-81); the service base is the
constant `keychainServicePrefix = "stackit-cli-provider"` of line 30. -/
def getKeyringServiceName (profile : String) : String :=
  if profile = defaultProfile then "stackit-cli-provider"
  else "stackit-cli-provider/" ++ profile

/-- `getFilePath` (part_005 lines 84-94). -/
def getFilePath (env : Env) (profile : String) : Except String String :=
  match env.homeDir with
  | Except.error e => Except.error ("get home dir: " ++ e)
  | Except.ok homeDir =>
    if profile = defaultProfile then
      Except.ok (homeDir ++ "/.stackit/cli-provider-auth-storage.txt")
    else
      Except.ok (homeDir ++ "/.stackit/profiles/" ++ profile ++ "/cli-provider-auth-storage.txt")

/-! ### Reading credentials (part_005 lines 96-236) -/

/-- `readFromKeychain` (part_005 lines 131-171): the three required fields
must each be retrievable from the keyring; the expiry and auth-flow entries
are optional, and an unparseable expiry string is silently ignored. -/
def readFromKeychain (k : KeyringState) (profile : String) :
    Except String ProviderCredentials :=
  let serviceName := getKeyringServiceName profile
  match keyringGet k serviceName "access_token" with
  | Except.error e => Except.error ("get access_token: " ++ e)
  | Except.ok accessToken =>
    match keyringGet k serviceName "refresh_token" with
    | Except.error e => Except.error ("get refresh_token: " ++ e)
    | Except.ok refreshToken =>
      match keyringGet k serviceName "user_email" with
      | Except.error e => Except.error ("get user_email: " ++ e)
      | Except.ok email =>
        let sessionExpiresAt :=
          match keyringGet k serviceName "session_expires_at_unix" with
          | Except.ok expiryStr => parseInt64 expiryStr
          | Except.error _ => none
        let authFlowType :=
          match keyringGet k serviceName "auth_flow_type" with
          | Except.ok authFlow => authFlow
          | Except.error _ => ""
        Except.ok
          { accessToken := accessToken, refreshToken := refreshToken, email := email,
            sessionExpiresAt := sessionExpiresAt, authFlowType := authFlowType,
            sourceProfile := "", storageLocationUsed := "" }

/-- Field extraction from the decoded JSON map (part_005 lines 201-235):
the three required fields must be present and non-empty; the expiry and
auth-flow entries are optional, and an unparseable expiry is ignored. -/
def parseCredData (data : List (String × String)) :
    Except String ProviderCredentials :=
  match data.lookup "access_token" with
  | none => Except.error "access_token not found in file"
  | some accessToken =>
    if accessToken = "" then Except.error "access_token not found in file"
    else
      match data.lookup "refresh_token" with
      | none => Except.error "refresh_token not found in file"
      | some refreshToken =>
        if refreshToken = "" then Except.error "refresh_token not found in file"
        else
          match data.lookup "user_email" with
          | none => Except.error "user_email not found in file"
          | some email =>
            if email = "" then Except.error "user_email not found in file"
            else
              let sessionExpiresAt :=
                match data.lookup "session_expires_at_unix" with
                | some expiryStr => parseInt64 expiryStr
                | none => none
              let authFlowType :=
                match data.lookup "auth_flow_type" with
                | some authFlow => authFlow
                | none => ""
              Except.ok
                { accessToken := accessToken, refreshToken := refreshToken, email := email,
                  sessionExpiresAt := sessionExpiresAt, authFlowType := authFlowType,
                  sourceProfile := "", storageLocationUsed := "" }

/-- `readFromFile` (part_005 lines 174-236): read the per-profile file,
decode base64, unmarshal the JSON string map, then extract the fields. -/
def readFromFile (env : Env) (fs : FileSystem) (profile : String) :
    Except String ProviderCredentials :=
  match getFilePath env profile with
  | Except.error e => Except.error ("get file path: " ++ e)
  | Except.ok filePath =>
    match readFile fs filePath with
    | Except.error FsError.notExist =>
      Except.error ("credentials file not found at " ++ filePath)
    | Except.error (FsError.ioError m) => Except.error ("read file: " ++ m)
    | Except.ok contentEncoded =>
      match base64Decode contentEncoded with
      | Except.error e => Except.error ("decode base64: " ++ e)
      | Except.ok contentBytes =>
        match jsonUnmarshalStringMap contentBytes with
        | Except.error e => Except.error ("unmarshal json: " ++ e)
        | Except.ok data => parseCredData data

/-- `ReadCLICredentials` (part_005 lines 102-127): resolve the profile, try
the keyring, fall back to the file, and on double failure return the single
combined error message. -/
def ReadCLICredentials (profileOverride : String) (env : Env) (w : WorldState) :
    Except String ProviderCredentials :=
  match getActiveProfile profileOverride env w.fs with
  | Except.error e => Except.error ("determine active profile: " ++ e)
  | Except.ok profile =>
    match readFromKeychain w.keyring profile with
    | Except.ok creds =>
      Except.ok { creds with sourceProfile := profile, storageLocationUsed := "keyring" }
    | Except.error keyringErr =>
      match readFromFile env w.fs profile with
      | Except.ok creds =>
        Except.ok { creds with sourceProfile := profile, storageLocationUsed := "file" }
      | Except.error fileErr =>
        Except.error ("failed to read CLI credentials from keyring (" ++ keyringErr ++
          ") or file (" ++ fileErr ++
          "). Please run \x27stackit auth provider login\x27 first")

/-! ### Writing credentials (part_005 lines 249-346) -/

/-- File-system operations performed by a write, recorded as a trace so that
atomicity (temporary path + rename) is observable. -/
inductive FsOp where
  | mkdirAll (dir : String)
  | writeFile (path : String) (content : String)
  | rename (src dst : String)
deriving DecidableEq

/-- `filepath.Dir`, for the `os.MkdirAll` trace entry. -/
def filepathDir (path : String) : String :=
  let rev := path.data.reverse
  match rev.dropWhile (fun c => c ≠ '/') with
  | [] => "."
  | ['/'] => "/"
  | _ :: restRev => String.mk restRev.reverse

/-- `keyring.Set` whose error is dropped (part_005 lines 290, 294). -/
def trySet (k : KeyringState) (service key value : String) : KeyringState :=
  match keyringSet k service key value with
  | Except.ok k2 => k2
  | Except.error _ => k

/-- `writeToKeyring` (part_005 lines 271-298): the three required fields are
written with errors propagated; the optional expiry and auth-flow entries
are written with errors ignored. -/
def writeToKeyring (profile : String) (creds : ProviderCredentials)
    (k : KeyringState) : Except String KeyringState :=
  let serviceName := getKeyringServiceName profile
  match keyringSet k serviceName "access_token" creds.accessToken with
  | Except.error e => Except.error ("set access_token: " ++ e)
  | Except.ok k1 =>
    match keyringSet k1 serviceName "refresh_token" creds.refreshToken with
    | Except.error e => Except.error ("set refresh_token: " ++ e)
    | Except.ok k2 =>
      match keyringSet k2 serviceName "user_email" creds.email with
      | Except.error e => Except.error ("set user_email: " ++ e)
      | Except.ok k3 =>
        let k4 :=
          match creds.sessionExpiresAt with
          | some t => trySet k3 serviceName "session_expires_at_unix" (toString t)
          | none => k3
        let k5 :=
          if creds.authFlowType ≠ "" then
            trySet k4 serviceName "auth_flow_type" creds.authFlowType
          else k4
        Except.ok k5

/-- `writeToFile` (part_005 lines 301-346): read-merge any existing decodable
content, overwrite the credential fields, marshal, base64-encode, make the
directory, and write the file in place.  The returned trace records the
file-system operations in order. -/
def writeToFile (env : Env) (profile : String) (creds : ProviderCredentials)
    (fs : FileSystem) : Except String Unit × FileSystem × List FsOp :=
  match getFilePath env profile with
  | Except.error e => (Except.error ("get file path: " ++ e), fs, [])
  | Except.ok filePath =>
    let data : List (String × String) :=
      match readFile fs filePath with
      | Except.ok existingContent =>
        match base64Decode existingContent with
        | Except.ok contentBytes =>
          match jsonUnmarshalStringMap contentBytes with
          | Except.ok m => m
          | Except.error _ => []
        | Except.error _ => []
      | Except.error _ => []
    let data := mapInsert data "access_token" creds.accessToken
    let data := mapInsert data "refresh_token" creds.refreshToken
    let data := mapInsert data "user_email" creds.email
    let data :=
      match creds.sessionExpiresAt with
      | some t => mapInsert data "session_expires_at_unix" (toString t)
      | none => data
    let data :=
      if creds.authFlowType ≠ "" then mapInsert data "auth_flow_type" creds.authFlowType
      else data
    let encoded := base64Encode (jsonMarshalStringMap data)
    (Except.ok (), fsWrite fs filePath encoded,
      [FsOp.mkdirAll (filepathDir filePath), FsOp.writeFile filePath encoded])

/-- `WriteCLICredentials` (part_005 lines 251-268): default the profile from
`SourceProfile`, try the keyring first, fall back to the file.
`StorageLocationUsed` is never consulted. -/
def WriteCLICredentials (env : Env) (creds : ProviderCredentials) (w : WorldState) :
    Except String Unit × WorldState × List FsOp :=
  let profile := if creds.sourceProfile = "" then defaultProfile else creds.sourceProfile
  match writeToKeyring profile creds w.keyring with
  | Except.ok k2 => (Except.ok (), { w with keyring := k2 }, [])
  | Except.error _ =>
    let res := writeToFile env profile creds w.fs
    (res.1, { w with fs := res.2.1 }, res.2.2)

/-! ### Token refresh (cli_token_refresh.go) -/

/-- `RefreshTokenResponse` (cli_token_refresh.go lines 21-26); Go zero values
stand for absent JSON fields. -/
structure RefreshTokenResponse where
  accessToken : String
  refreshToken : String
  expiresIn : Int
  tokenType : String
deriving DecidableEq

/-- Outcome of the single outbound HTTP POST to the token endpoint, as seen
by the code after `client.Do` and the JSON decode of a 200 body: transport
error, a response with a non-200 status and its body, an undecodable 200
body, or the decoded response. -/
inductive RefreshHttpOutcome where
  | transportError (msg : String)
  | httpResponse (status : Int) (body : String)
  | decodeError (msg : String)
  | ok (result : RefreshTokenResponse)
deriving DecidableEq

/-- `RefreshAccessToken` (cli_token_refresh.go lines 30-86) on non-nil
credentials.  `httpOutcome` is what the exchange would deliver; the returned
`Nat` counts the outbound refresh HTTP exchanges actually issued (0 or 1).
On success the function itself persists the update via
`WriteCLICredentials`. -/
def RefreshAccessToken (now : Int) (httpOutcome : RefreshHttpOutcome)
    (env : Env) (creds : ProviderCredentials) (w : WorldState) :
    Except String ProviderCredentials × WorldState × Nat :=
  if creds.refreshToken = "" then (Except.error "refresh token is empty", w, 0)
  else
    match httpOutcome with
    | RefreshHttpOutcome.transportError msg =>
      (Except.error ("execute request: " ++ msg), w, 1)
    | RefreshHttpOutcome.httpResponse status body =>
      (Except.error ("token refresh failed with status " ++ toString status ++ ": " ++ body),
        w, 1)
    | RefreshHttpOutcome.decodeError msg =>
      (Except.error ("decode response: " ++ msg), w, 1)
    | RefreshHttpOutcome.ok result =>
      let updated :=
        { creds with
          accessToken := result.accessToken,
          refreshToken := if result.refreshToken ≠ "" then result.refreshToken
                          else creds.refreshToken,
          sessionExpiresAt := if result.expiresIn > 0 then some (now + result.expiresIn)
                              else creds.sessionExpiresAt }
      let written := WriteCLICredentials env updated w
      match written.1 with
      | Except.error e =>
        (Except.error ("write refreshed credentials: " ++ e), written.2.1, 1)
      | Except.ok _ => (Except.ok updated, written.2.1, 1)

/-- `IsTokenExpired` (cli_token_refresh.go lines 89-101): nil credentials are
expired; a zero expiry means "assume valid"; otherwise expired iff
`now + 5 minutes` is strictly after the stored expiry. -/
def IsTokenExpired (now : Int) (creds : Option ProviderCredentials) : Bool :=
  match creds with
  | none => true
  | some c =>
    match c.sessionExpiresAt with
    | none => false
    | some e => decide (now + 5 * 60 > e)

/-- `EnsureValidToken` (cli_token_refresh.go lines 104-110) on non-nil
credentials: refresh exactly when the token is expired. -/
def EnsureValidToken (now : Int) (httpOutcome : RefreshHttpOutcome)
    (env : Env) (creds : ProviderCredentials) (w : WorldState) :
    Except String ProviderCredentials × WorldState × Nat :=
  if !IsTokenExpired now (some creds) then (Except.ok creds, w, 0)
  else RefreshAccessToken now httpOutcome env creds w

/-- Formalisation of the wording of the atomic-write property: the trace
writes content to some temporary path distinct from the final path and later
renames that temporary path onto the final path, and never writes the final
path directly. -/
def specAtomicTempRename (ops : List FsOp) (finalPath : String) : Bool :=
  (ops.any fun op =>
    match op with
    | FsOp.rename _ dst => dst == finalPath
    | _ => false) &&
  !(ops.any fun op =>
    match op with
    | FsOp.writeFile p _ => p == finalPath
    | _ => false)

/-! ## Claims -/

/-- C6: the expiry check applies a 5-minute safety margin: an expiry
4 minutes 59 seconds in the future is expired, 5 minutes 1 second in the
future is not, and a credential with no expiry set is never expired. -/
theorem c6_expiry_margin_boundaries (now : Int) (c : ProviderCredentials) :
    IsTokenExpired now (some { c with sessionExpiresAt := some (now + (4 * 60 + 59)) }) = true ∧
    IsTokenExpired now (some { c with sessionExpiresAt := some (now + (5 * 60 + 1)) }) = false ∧
    IsTokenExpired now (some { c with sessionExpiresAt := none }) = false := by
  refine ⟨?_, ?_, rfl⟩ <;> simp [IsTokenExpired]

/-- C1: `WriteCLICredentials` does not consult `StorageLocationUsed`: a
credential that was read from the file backend (`storageLocationUsed =
"file"`) is written back to the keyring whenever the keyring accepts the
write, leaving the credential file untouched — contrary to the function's
own documentation comment. -/
theorem c1_writeback_ignores_storage_location :
    WriteCLICredentials
      { stackitCliProfile := "", homeDir := Except.ok "/home/u" }
      { accessToken := "A2", refreshToken := "R", email := "e@x.com",
        sessionExpiresAt := none, authFlowType := "",
        sourceProfile := "default", storageLocationUsed := "file" }
      { keyring := { available := true, entries := [] },
        fs := [("/home/u/.stackit/cli-provider-auth-storage.txt",
          FileEntry.readable "eyJhY2Nlc3NfdG9rZW4iOiJBIiwicmVmcmVzaF90b2tlbiI6IlIiLCJ1c2VyX2VtYWlsIjoiZUB4LmNvbSJ9")] }
    = (Except.ok (),
       { keyring := { available := true,
                      entries := [("stackit-cli-provider", "access_token", "A2"),
                                  ("stackit-cli-provider", "refresh_token", "R"),
                                  ("stackit-cli-provider", "user_email", "e@x.com")] },
         fs := [("/home/u/.stackit/cli-provider-auth-storage.txt",
           FileEntry.readable "eyJhY2Nlc3NfdG9rZW4iOiJBIiwicmVmcmVzaF90b2tlbiI6IlIiLCJ1c2VyX2VtYWlsIjoiZUB4LmNvbSJ9")] },
       []) := by
  rfl

/-- C2 counterexample: a refresh does not leave the storage backends
unchanged — on this concrete successful exchange `RefreshAccessToken`
itself mutates the keyring. -/
theorem c2_counterexample :
    (RefreshAccessToken 5000
      (RefreshHttpOutcome.ok
        { accessToken := "A2", refreshToken := "", expiresIn := 3600, tokenType := "Bearer" })
      { stackitCliProfile := "", homeDir := Except.ok "/home/u" }
      { accessToken := "A", refreshToken := "R", email := "e@x.com",
        sessionExpiresAt := some 4000, authFlowType := "",
        sourceProfile := "default", storageLocationUsed := "keyring" }
      { keyring := { available := true, entries := [] }, fs := [] }).2.1
    ≠ ({ keyring := { available := true, entries := [] }, fs := [] } : WorldState) := by
  decide

/-- C2 amended: `RefreshAccessToken` persists the refreshed credential
itself — after a successful exchange the world state is exactly the state
left by `WriteCLICredentials` applied to the updated record. -/
theorem c2_refresh_persists_itself (now : Int) (result : RefreshTokenResponse)
    (env : Env) (creds : ProviderCredentials) (w : WorldState)
    (h : creds.refreshToken ≠ "") :
    (RefreshAccessToken now (RefreshHttpOutcome.ok result) env creds w).2.1 =
      (WriteCLICredentials env
        { creds with
          accessToken := result.accessToken,
          refreshToken := if result.refreshToken ≠ "" then result.refreshToken
                          else creds.refreshToken,
          sessionExpiresAt := if result.expiresIn > 0 then some (now + result.expiresIn)
                              else creds.sessionExpiresAt }
        w).2.1 := by
  unfold RefreshAccessToken
  rw [if_neg (by simpa using h)]
  dsimp only
  split <;> rfl

/-- C2 witness: the amended theorem at a concrete input. -/
theorem c2_refresh_persists_itself_witness :
    (RefreshAccessToken 5000
      (RefreshHttpOutcome.ok
        { accessToken := "A2", refreshToken := "", expiresIn := 3600, tokenType := "Bearer" })
      { stackitCliProfile := "", homeDir := Except.ok "/home/u" }
      { accessToken := "A", refreshToken := "R", email := "e@x.com",
        sessionExpiresAt := some 4000, authFlowType := "",
        sourceProfile := "default", storageLocationUsed := "keyring" }
      { keyring := { available := true, entries := [] }, fs := [] }).2.1 =
      (WriteCLICredentials
        { stackitCliProfile := "", homeDir := Except.ok "/home/u" }
        { accessToken := "A2", refreshToken := "R", email := "e@x.com",
          sessionExpiresAt := some 8600, authFlowType := "",
          sourceProfile := "default", storageLocationUsed := "keyring" }
        { keyring := { available := true, entries := [] }, fs := [] }).2.1 := by
  have h := c2_refresh_persists_itself 5000
    { accessToken := "A2", refreshToken := "", expiresIn := 3600, tokenType := "Bearer" }
    { stackitCliProfile := "", homeDir := Except.ok "/home/u" }
    { accessToken := "A", refreshToken := "R", email := "e@x.com",
      sessionExpiresAt := some 4000, authFlowType := "",
      sourceProfile := "default", storageLocationUsed := "keyring" }
    { keyring := { available := true, entries := [] }, fs := [] }
    (by decide)
  simpa using h

/-- C3 counterexample: two invocations of `EnsureValidToken` against the same
expired credential issue two outbound refresh HTTP exchanges, not one. -/
theorem c3_counterexample :
    (EnsureValidToken 1000
        (RefreshHttpOutcome.ok
          { accessToken := "A2", refreshToken := "", expiresIn := 3600, tokenType := "Bearer" })
        { stackitCliProfile := "", homeDir := Except.ok "/home/u" }
        { accessToken := "A", refreshToken := "R", email := "e@x.com",
          sessionExpiresAt := some 900, authFlowType := "",
          sourceProfile := "default", storageLocationUsed := "keyring" }
        { keyring := { available := true, entries := [] }, fs := [] }).2.2 +
    (EnsureValidToken 1000
        (RefreshHttpOutcome.ok
          { accessToken := "A2", refreshToken := "", expiresIn := 3600, tokenType := "Bearer" })
        { stackitCliProfile := "", homeDir := Except.ok "/home/u" }
        { accessToken := "A", refreshToken := "R", email := "e@x.com",
          sessionExpiresAt := some 900, authFlowType := "",
          sourceProfile := "default", storageLocationUsed := "keyring" }
        { keyring := { available := true, entries := [] }, fs := [] }).2.2 = 2 ∧
    (2 : Nat) ≠ 1 := by
  constructor
  · decide
  · decide

/-- C3 amended: refresh is not single-flight — every `EnsureValidToken`
invocation that observes an expired credential with a non-empty refresh
token issues exactly one outbound refresh HTTP exchange of its own, so N
invocations issue N exchanges. -/
theorem c3_each_call_issues_own_exchange (now : Int)
    (httpOutcome : RefreshHttpOutcome) (env : Env)
    (creds : ProviderCredentials) (w : WorldState)
    (hexp : IsTokenExpired now (some creds) = true)
    (hrt : creds.refreshToken ≠ "") :
    (EnsureValidToken now httpOutcome env creds w).2.2 = 1 := by
  unfold EnsureValidToken
  rw [hexp]
  simp only [Bool.not_true, Bool.false_eq_true, if_false]
  unfold RefreshAccessToken
  rw [if_neg (by simpa using hrt)]
  cases httpOutcome
  case transportError => rfl
  case httpResponse => rfl
  case decodeError => rfl
  case ok => dsimp only; split <;> rfl

/-- C3 witness: the amended theorem at a concrete input. -/
theorem c3_each_call_issues_own_exchange_witness :
    (EnsureValidToken 1000
      (RefreshHttpOutcome.ok
        { accessToken := "A2", refreshToken := "", expiresIn := 3600, tokenType := "Bearer" })
      { stackitCliProfile := "", homeDir := Except.ok "/home/u" }
      { accessToken := "A", refreshToken := "R", email := "e@x.com",
        sessionExpiresAt := some 900, authFlowType := "",
        sourceProfile := "default", storageLocationUsed := "keyring" }
      { keyring := { available := true, entries := [] }, fs := [] }).2.2 = 1 :=
  c3_each_call_issues_own_exchange 1000
    (RefreshHttpOutcome.ok
      { accessToken := "A2", refreshToken := "", expiresIn := 3600, tokenType := "Bearer" })
    { stackitCliProfile := "", homeDir := Except.ok "/home/u" }
    { accessToken := "A", refreshToken := "R", email := "e@x.com",
      sessionExpiresAt := some 900, authFlowType := "",
      sourceProfile := "default", storageLocationUsed := "keyring" }
    { keyring := { available := true, entries := [] }, fs := [] }
    (by decide) (by decide)

/-- C4 counterexample: at this concrete input the write trace of
`writeToFile` is a directory creation followed by a single direct write at
the final path, and the claimed temporary-path-then-rename pattern is
absent. -/
theorem c4_counterexample :
    (writeToFile { stackitCliProfile := "", homeDir := Except.ok "/home/u" } "default"
      { accessToken := "A", refreshToken := "R", email := "e@x.com",
        sessionExpiresAt := none, authFlowType := "",
        sourceProfile := "default", storageLocationUsed := "file" } []).2.2 =
      [FsOp.mkdirAll "/home/u/.stackit",
       FsOp.writeFile "/home/u/.stackit/cli-provider-auth-storage.txt"
         "eyJhY2Nlc3NfdG9rZW4iOiJBIiwicmVmcmVzaF90b2tlbiI6IlIiLCJ1c2VyX2VtYWlsIjoiZUB4LmNvbSJ9"] ∧
    specAtomicTempRename
      (writeToFile { stackitCliProfile := "", homeDir := Except.ok "/home/u" } "default"
        { accessToken := "A", refreshToken := "R", email := "e@x.com",
          sessionExpiresAt := none, authFlowType := "",
          sourceProfile := "default", storageLocationUsed := "file" } []).2.2
      "/home/u/.stackit/cli-provider-auth-storage.txt" = false := by
  exact ⟨by rfl, by rfl⟩

/-- C4 amended: the file-backend write is a direct in-place write — every
operation in the trace of `writeToFile` is a directory creation or a write
at the final path, no rename occurs, and a write at the final path does
occur. -/
theorem c4_write_is_direct_not_atomic (env : Env) (profile : String)
    (creds : ProviderCredentials) (fs : FileSystem) (filePath : String)
    (h : getFilePath env profile = Except.ok filePath) :
    ((writeToFile env profile creds fs).2.2.all fun op =>
      match op with
      | FsOp.mkdirAll _ => true
      | FsOp.writeFile p _ => p == filePath
      | FsOp.rename _ _ => false) = true ∧
    ((writeToFile env profile creds fs).2.2.any fun op =>
      match op with
      | FsOp.writeFile p _ => p == filePath
      | _ => false) = true := by
  unfold writeToFile
  rw [h]
  dsimp only
  constructor <;> simp

/-- C4 witness: the amended theorem at a concrete input. -/
theorem c4_write_is_direct_not_atomic_witness :
    ((writeToFile { stackitCliProfile := "", homeDir := Except.ok "/home/u" } "default"
      { accessToken := "A", refreshToken := "R", email := "e@x.com",
        sessionExpiresAt := none, authFlowType := "",
        sourceProfile := "default", storageLocationUsed := "file" } []).2.2.all fun op =>
      match op with
      | FsOp.mkdirAll _ => true
      | FsOp.writeFile p _ => p == "/home/u/.stackit/cli-provider-auth-storage.txt"
      | FsOp.rename _ _ => false) = true ∧
    ((writeToFile { stackitCliProfile := "", homeDir := Except.ok "/home/u" } "default"
      { accessToken := "A", refreshToken := "R", email := "e@x.com",
        sessionExpiresAt := none, authFlowType := "",
        sourceProfile := "default", storageLocationUsed := "file" } []).2.2.any fun op =>
      match op with
      | FsOp.writeFile p _ => p == "/home/u/.stackit/cli-provider-auth-storage.txt"
      | _ => false) = true :=
  c4_write_is_direct_not_atomic
    { stackitCliProfile := "", homeDir := Except.ok "/home/u" } "default"
    { accessToken := "A", refreshToken := "R", email := "e@x.com",
      sessionExpiresAt := none, authFlowType := "",
      sourceProfile := "default", storageLocationUsed := "file" } []
    "/home/u/.stackit/cli-provider-auth-storage.txt" (by rfl)

/-- C5: `ReadCLICredentials` attempts the keyring first; on any keyring
failure it falls back to the file backend whole, tagging a file success with
`StorageLocationUsed = "file"`; and when both backends fail it returns the
single combined error naming both failure reasons and the guidance to re-run
the login flow. -/
theorem c5_read_fallback_policy (profileOverride : String) (env : Env)
    (w : WorldState) (profile keyringErr fileErr : String)
    (c : ProviderCredentials)
    (hprof : getActiveProfile profileOverride env w.fs = Except.ok profile) :
    (readFromKeychain w.keyring profile = Except.ok c →
      ReadCLICredentials profileOverride env w =
        Except.ok { c with sourceProfile := profile, storageLocationUsed := "keyring" }) ∧
    (readFromKeychain w.keyring profile = Except.error keyringErr →
      readFromFile env w.fs profile = Except.ok c →
      ReadCLICredentials profileOverride env w =
        Except.ok { c with sourceProfile := profile, storageLocationUsed := "file" }) ∧
    (readFromKeychain w.keyring profile = Except.error keyringErr →
      readFromFile env w.fs profile = Except.error fileErr →
      ReadCLICredentials profileOverride env w =
        Except.error ("failed to read CLI credentials from keyring (" ++ keyringErr ++
          ") or file (" ++ fileErr ++
          "). Please run \x27stackit auth provider login\x27 first")) := by
  refine ⟨fun hk => ?_, fun hk hf => ?_, fun hk hf => ?_⟩
  · unfold ReadCLICredentials
    rw [hprof]
    dsimp only
    rw [hk]
  · unfold ReadCLICredentials
    rw [hprof]
    dsimp only
    rw [hk]
    dsimp only
    rw [hf]
  · unfold ReadCLICredentials
    rw [hprof]
    dsimp only
    rw [hk]
    dsimp only
    rw [hf]

/-- C5 witness: the fallback branch and the combined-error branch of the
theorem, each at a concrete input. -/
theorem c5_read_fallback_policy_witness :
    ReadCLICredentials "default" { stackitCliProfile := "", homeDir := Except.ok "/home/u" }
      { keyring := { available := false, entries := [] },
        fs := [("/home/u/.stackit/cli-provider-auth-storage.txt",
          FileEntry.readable "eyJhY2Nlc3NfdG9rZW4iOiJBIiwicmVmcmVzaF90b2tlbiI6IlIiLCJ1c2VyX2VtYWlsIjoiZUB4LmNvbSJ9")] } =
      Except.ok
        { accessToken := "A", refreshToken := "R", email := "e@x.com",
          sessionExpiresAt := none, authFlowType := "",
          sourceProfile := "default", storageLocationUsed := "file" } ∧
    ReadCLICredentials "default" { stackitCliProfile := "", homeDir := Except.ok "/home/u" }
      { keyring := { available := false, entries := [] }, fs := [] } =
      Except.error ("failed to read CLI credentials from keyring (get access_token: keyring backend unavailable) or file (credentials file not found at /home/u/.stackit/cli-provider-auth-storage.txt). Please run \x27stackit auth provider login\x27 first") :=
  ⟨(c5_read_fallback_policy "default" { stackitCliProfile := "", homeDir := Except.ok "/home/u" }
      { keyring := { available := false, entries := [] },
        fs := [("/home/u/.stackit/cli-provider-auth-storage.txt",
          FileEntry.readable "eyJhY2Nlc3NfdG9rZW4iOiJBIiwicmVmcmVzaF90b2tlbiI6IlIiLCJ1c2VyX2VtYWlsIjoiZUB4LmNvbSJ9")] }
      "default" "get access_token: keyring backend unavailable" ""
      { accessToken := "A", refreshToken := "R", email := "e@x.com",
        sessionExpiresAt := none, authFlowType := "",
        sourceProfile := "", storageLocationUsed := "" }
      (by rfl)).2.1 (by rfl) (by rfl),
   (c5_read_fallback_policy "default" { stackitCliProfile := "", homeDir := Except.ok "/home/u" }
      { keyring := { available := false, entries := [] }, fs := [] }
      "default" "get access_token: keyring backend unavailable"
      "credentials file not found at /home/u/.stackit/cli-provider-auth-storage.txt"
      { accessToken := "", refreshToken := "", email := "",
        sessionExpiresAt := none, authFlowType := "",
        sourceProfile := "", storageLocationUsed := "" }
      (by rfl)).2.2 (by rfl) (by rfl)⟩

/-- C7 counterexample: on a successful exchange whose response carries no
lifetime (`expires_in` absent, i.e. zero), the updated credential keeps its
previous `ExpiresAt` value instead of being left unset. -/
theorem c7_counterexample :
    (match (RefreshAccessToken 5000
        (RefreshHttpOutcome.ok
          { accessToken := "A2", refreshToken := "", expiresIn := 0, tokenType := "Bearer" })
        { stackitCliProfile := "", homeDir := Except.ok "/home/u" }
        { accessToken := "A", refreshToken := "R", email := "e@x.com",
          sessionExpiresAt := some 1000, authFlowType := "",
          sourceProfile := "default", storageLocationUsed := "keyring" }
        { keyring := { available := true, entries := [] }, fs := [] }).1 with
      | Except.ok c => c.sessionExpiresAt
      | Except.error _ => none) = some 1000 ∧ (some 1000 : Option Int) ≠ none := by
  exact ⟨by rfl, by decide⟩

/-- C7 amended: on a 200 response that decodes, with the write-back
succeeding, the access token is replaced by the response's, the refresh
token is replaced exactly when the response supplies a non-empty one, and
`ExpiresAt` is recomputed as now plus the lifetime when the response's
lifetime is positive and is otherwise left unchanged. -/
theorem c7_refresh_success_update_rule (now : Int)
    (result : RefreshTokenResponse) (env : Env)
    (creds updated : ProviderCredentials) (w : WorldState)
    (h : creds.refreshToken ≠ "")
    (hu : updated = { creds with
        accessToken := result.accessToken,
        refreshToken := if result.refreshToken ≠ "" then result.refreshToken
                        else creds.refreshToken,
        sessionExpiresAt := if result.expiresIn > 0 then some (now + result.expiresIn)
                            else creds.sessionExpiresAt })
    (hw : (WriteCLICredentials env updated w).1 = Except.ok ()) :
    (RefreshAccessToken now (RefreshHttpOutcome.ok result) env creds w).1 =
      Except.ok updated := by
  subst hu
  unfold RefreshAccessToken
  rw [if_neg (by simpa using h)]
  dsimp only
  rw [hw]

/-- C7 witness: the amended theorem at a concrete input. -/
theorem c7_refresh_success_update_rule_witness :
    (RefreshAccessToken 5000
      (RefreshHttpOutcome.ok
        { accessToken := "A2", refreshToken := "", expiresIn := 0, tokenType := "Bearer" })
      { stackitCliProfile := "", homeDir := Except.ok "/home/u" }
      { accessToken := "A", refreshToken := "R", email := "e@x.com",
        sessionExpiresAt := some 1000, authFlowType := "",
        sourceProfile := "default", storageLocationUsed := "keyring" }
      { keyring := { available := true, entries := [] }, fs := [] }).1 =
      Except.ok
        { accessToken := "A2", refreshToken := "R", email := "e@x.com",
          sessionExpiresAt := some 1000, authFlowType := "",
          sourceProfile := "default", storageLocationUsed := "keyring" } :=
  c7_refresh_success_update_rule 5000
    { accessToken := "A2", refreshToken := "", expiresIn := 0, tokenType := "Bearer" }
    { stackitCliProfile := "", homeDir := Except.ok "/home/u" }
    { accessToken := "A", refreshToken := "R", email := "e@x.com",
      sessionExpiresAt := some 1000, authFlowType := "",
      sourceProfile := "default", storageLocationUsed := "keyring" }
    { accessToken := "A2", refreshToken := "R", email := "e@x.com",
      sessionExpiresAt := some 1000, authFlowType := "",
      sourceProfile := "default", storageLocationUsed := "keyring" }
    { keyring := { available := true, entries := [] }, fs := [] }
    (by decide) (by rfl) (by rfl)

/-- C8 counterexample: with the override and the environment variable both
empty and the pointer file existing with whitespace-only contents, profile
resolution returns the empty string instead of the default name, so the
result is not the first non-empty source. -/
theorem c8_counterexample :
    getActiveProfile "" { stackitCliProfile := "", homeDir := Except.ok "/home/u" }
      [("/home/u/.config/stackit/cli-profile.txt", FileEntry.readable "  \n")] =
      Except.ok "" ∧
    (Except.ok "" : Except String String) ≠ Except.ok "default" := by
  exact ⟨by rfl, by decide⟩

/-- C8 amended: resolution returns the first non-empty of the override and
the environment variable; otherwise a missing pointer file yields the
default name, a readable pointer file yields its trimmed contents even when
those are empty, an existing but unreadable pointer file is an error, and a
home-directory failure is also an error. -/
theorem c8_profile_resolution_rule (profileOverride : String) (env : Env)
    (fs : FileSystem) :
    (profileOverride ≠ "" →
      getActiveProfile profileOverride env fs = Except.ok profileOverride) ∧
    (profileOverride = "" → env.stackitCliProfile ≠ "" →
      getActiveProfile profileOverride env fs = Except.ok env.stackitCliProfile) ∧
    (∀ e, profileOverride = "" → env.stackitCliProfile = "" →
      env.homeDir = Except.error e →
      getActiveProfile profileOverride env fs =
        Except.error ("get home dir: " ++ e)) ∧
    (∀ home, profileOverride = "" → env.stackitCliProfile = "" →
      env.homeDir = Except.ok home →
      readFile fs (home ++ "/.config/stackit/cli-profile.txt") =
        Except.error FsError.notExist →
      getActiveProfile profileOverride env fs = Except.ok "default") ∧
    (∀ home m, profileOverride = "" → env.stackitCliProfile = "" →
      env.homeDir = Except.ok home →
      readFile fs (home ++ "/.config/stackit/cli-profile.txt") =
        Except.error (FsError.ioError m) →
      getActiveProfile profileOverride env fs =
        Except.error ("read profile file: " ++ m)) ∧
    (∀ home data, profileOverride = "" → env.stackitCliProfile = "" →
      env.homeDir = Except.ok home →
      readFile fs (home ++ "/.config/stackit/cli-profile.txt") = Except.ok data →
      getActiveProfile profileOverride env fs = Except.ok (trimSpace data)) := by
  refine ⟨fun h1 => ?_, fun h1 h2 => ?_, fun e h1 h2 h3 => ?_,
    fun home h1 h2 h3 h4 => ?_, fun home m h1 h2 h3 h4 => ?_,
    fun home data h1 h2 h3 h4 => ?_⟩
  · unfold getActiveProfile
    rw [if_pos h1]
  · unfold getActiveProfile
    rw [if_neg (by simp [h1]), if_pos h2]
  · unfold getActiveProfile
    rw [if_neg (by simp [h1]), if_neg (by simp [h2]), h3]
  · unfold getActiveProfile
    rw [if_neg (by simp [h1]), if_neg (by simp [h2]), h3]
    dsimp only
    rw [h4]
    rfl
  · unfold getActiveProfile
    rw [if_neg (by simp [h1]), if_neg (by simp [h2]), h3]
    dsimp only
    rw [h4]
  · unfold getActiveProfile
    rw [if_neg (by simp [h1]), if_neg (by simp [h2]), h3]
    dsimp only
    rw [h4]

/-- C8 witness: the readable-pointer-file branch of the theorem at a
concrete input. -/
theorem c8_profile_resolution_rule_witness :
    getActiveProfile "" { stackitCliProfile := "", homeDir := Except.ok "/home/u" }
      [("/home/u/.config/stackit/cli-profile.txt", FileEntry.readable "  work\n")] =
      Except.ok "work" :=
  (c8_profile_resolution_rule ""
    { stackitCliProfile := "", homeDir := Except.ok "/home/u" }
    [("/home/u/.config/stackit/cli-profile.txt",
      FileEntry.readable "  work\n")]).2.2.2.2.2 "/home/u" "  work\n"
    (by rfl) (by rfl) (by rfl) (by rfl)

/-- Helper: a successful field extraction from the decoded file map yields
non-empty required fields. -/
theorem parseCredData_fields_nonempty (data : List (String × String))
    (c : ProviderCredentials) (h : parseCredData data = Except.ok c) :
    c.accessToken ≠ "" ∧ c.refreshToken ≠ "" ∧ c.email ≠ "" := by
  unfold parseCredData at h
  repeat' split at h
  all_goals try dsimp only at h
  all_goals first
    | exact Except.noConfusion h
    | (injection h with h2; cases h2; exact ⟨by simp_all, by simp_all, by simp_all⟩)

/-- C9 counterexample: the keyring backend accepts an entry holding an empty
access token — the read succeeds and returns a credential whose AccessToken
is the empty string, a partial record rather than a failed read. -/
theorem c9_counterexample :
    ReadCLICredentials "default"
      { stackitCliProfile := "", homeDir := Except.ok "/home/u" }
      { keyring :=
          { available := true,
            entries := [("stackit-cli-provider", "access_token", ""),
                        ("stackit-cli-provider", "refresh_token", "R"),
                        ("stackit-cli-provider", "user_email", "e@x.com")] },
        fs := [] } =
      Except.ok
        { accessToken := "", refreshToken := "R", email := "e@x.com",
          sessionExpiresAt := none, authFlowType := "",
          sourceProfile := "default", storageLocationUsed := "keyring" } := by
  rfl

/-- C9 amended: a successful read through the file backend is fully
populated (AccessToken, RefreshToken and Email all non-empty); the keyring
backend only requires its three entries to be retrievable and performs no
non-emptiness check. -/
theorem c9_file_reads_fully_populated (env : Env) (fs : FileSystem)
    (profile : String) (c : ProviderCredentials)
    (h : readFromFile env fs profile = Except.ok c) :
    c.accessToken ≠ "" ∧ c.refreshToken ≠ "" ∧ c.email ≠ "" := by
  unfold readFromFile at h
  repeat' split at h
  all_goals first
    | exact absurd h (by simp)
    | exact parseCredData_fields_nonempty _ _ h

/-- C9 witness: the amended theorem at a concrete input where the file
backend satisfies the read. -/
theorem c9_file_reads_fully_populated_witness :
    ("A" : String) ≠ "" ∧ ("R" : String) ≠ "" ∧ ("e@x.com" : String) ≠ "" :=
  c9_file_reads_fully_populated
    { stackitCliProfile := "", homeDir := Except.ok "/home/u" }
    [("/home/u/.stackit/cli-provider-auth-storage.txt",
      FileEntry.readable "eyJhY2Nlc3NfdG9rZW4iOiJBIiwicmVmcmVzaF90b2tlbiI6IlIiLCJ1c2VyX2VtYWlsIjoiZUB4LmNvbSJ9")]
    "default"
    { accessToken := "A", refreshToken := "R", email := "e@x.com",
      sessionExpiresAt := none, authFlowType := "",
      sourceProfile := "", storageLocationUsed := "" }
    (by rfl)

/-- C10: in both backends, a `session_expires_at_unix` value that is present
but not parseable as a decimal integer is silently ignored: the read still
succeeds with `SessionExpiresAt` left unset, never erroring on account of
the malformed optional field. -/
theorem c10_malformed_expiry_ignored (k : KeyringState) (profile : String)
    (a r e s : String) (env : Env) (fs : FileSystem)
    (filePath enc txt : String) (data : List (String × String))
    (hps : parseInt64 s = none) :
    (keyringGet k (getKeyringServiceName profile) "access_token" = Except.ok a →
      keyringGet k (getKeyringServiceName profile) "refresh_token" = Except.ok r →
      keyringGet k (getKeyringServiceName profile) "user_email" = Except.ok e →
      keyringGet k (getKeyringServiceName profile) "session_expires_at_unix" = Except.ok s →
      (match readFromKeychain k profile with
       | Except.ok c => some c.sessionExpiresAt
       | Except.error _ => none) = some none) ∧
    (getFilePath env profile = Except.ok filePath →
      readFile fs filePath = Except.ok enc →
      base64Decode enc = Except.ok txt →
      jsonUnmarshalStringMap txt = Except.ok data →
      data.lookup "access_token" = some a → a ≠ "" →
      data.lookup "refresh_token" = some r → r ≠ "" →
      data.lookup "user_email" = some e → e ≠ "" →
      data.lookup "session_expires_at_unix" = some s →
      (match readFromFile env fs profile with
       | Except.ok c => some c.sessionExpiresAt
       | Except.error _ => none) = some none) := by
  constructor
  · intro h1 h2 h3 h4
    unfold readFromKeychain
    dsimp only
    rw [h1]
    dsimp only
    rw [h2]
    dsimp only
    rw [h3]
    dsimp only
    rw [h4]
    dsimp only
    rw [hps]
  · intro hfp hrd hb64 hjson ha hane hr hrne he hene hs
    unfold readFromFile
    rw [hfp]
    dsimp only
    rw [hrd]
    dsimp only
    rw [hb64]
    dsimp only
    rw [hjson]
    dsimp only
    unfold parseCredData
    rw [ha]
    dsimp only
    rw [if_neg hane]
    rw [hr]
    dsimp only
    rw [if_neg hrne]
    rw [he]
    dsimp only
    rw [if_neg hene]
    rw [hs]
    dsimp only
    rw [hps]

/-- C10 witness: the theorem at concrete inputs — a keyring whose expiry
entry is "notanumber" and a credential file whose JSON carries the same
malformed expiry string. -/
theorem c10_malformed_expiry_ignored_witness :
    (match readFromKeychain
        { available := true,
          entries := [("stackit-cli-provider", "access_token", "A"),
                      ("stackit-cli-provider", "refresh_token", "R"),
                      ("stackit-cli-provider", "user_email", "e@x.com"),
                      ("stackit-cli-provider", "session_expires_at_unix", "notanumber")] }
        "default" with
     | Except.ok c => some c.sessionExpiresAt
     | Except.error _ => none) = some none ∧
    (match readFromFile { stackitCliProfile := "", homeDir := Except.ok "/home/u" }
        [("/home/u/.stackit/cli-provider-auth-storage.txt",
          FileEntry.readable "eyJhY2Nlc3NfdG9rZW4iOiJBIiwicmVmcmVzaF90b2tlbiI6IlIiLCJzZXNzaW9uX2V4cGlyZXNfYXRfdW5peCI6Im5vdGFudW1iZXIiLCJ1c2VyX2VtYWlsIjoiZUB4LmNvbSJ9")]
        "default" with
     | Except.ok c => some c.sessionExpiresAt
     | Except.error _ => none) = some none :=
  ⟨(c10_malformed_expiry_ignored
      { available := true,
        entries := [("stackit-cli-provider", "access_token", "A"),
                    ("stackit-cli-provider", "refresh_token", "R"),
                    ("stackit-cli-provider", "user_email", "e@x.com"),
                    ("stackit-cli-provider", "session_expires_at_unix", "notanumber")] }
      "default" "A" "R" "e@x.com" "notanumber"
      { stackitCliProfile := "", homeDir := Except.ok "/home/u" } [] "" "" ""
      [] (by rfl)).1 (by rfl) (by rfl) (by rfl) (by rfl),
   (c10_malformed_expiry_ignored
      { available := true, entries := [] }
      "default" "A" "R" "e@x.com" "notanumber"
      { stackitCliProfile := "", homeDir := Except.ok "/home/u" }
      [("/home/u/.stackit/cli-provider-auth-storage.txt",
        FileEntry.readable "eyJhY2Nlc3NfdG9rZW4iOiJBIiwicmVmcmVzaF90b2tlbiI6IlIiLCJzZXNzaW9uX2V4cGlyZXNfYXRfdW5peCI6Im5vdGFudW1iZXIiLCJ1c2VyX2VtYWlsIjoiZUB4LmNvbSJ9")]
      "/home/u/.stackit/cli-provider-auth-storage.txt"
      "eyJhY2Nlc3NfdG9rZW4iOiJBIiwicmVmcmVzaF90b2tlbiI6IlIiLCJzZXNzaW9uX2V4cGlyZXNfYXRfdW5peCI6Im5vdGFudW1iZXIiLCJ1c2VyX2VtYWlsIjoiZUB4LmNvbSJ9"
      "\x7b\"access_token\":\"A\",\"refresh_token\":\"R\",\"session_expires_at_unix\":\"notanumber\",\"user_email\":\"e@x.com\"\x7d"
      [("access_token", "A"), ("refresh_token", "R"),
       ("session_expires_at_unix", "notanumber"), ("user_email", "e@x.com")]
      (by rfl)).2 (by rfl) (by rfl) (by rfl) (by rfl) (by rfl) (by decide)
      (by rfl) (by decide) (by rfl) (by decide) (by rfl)⟩

end StackitAuth
